import Mathlib

/-!
Verification development for the `scrollbar-ts` virtual-scrolling controller
(`src/ts/index.ts`).

The TypeScript class `VerticalScrollController` is shallowly embedded as a
Lean state-transition system:

* JavaScript numbers are modelled as `ℚ` (pixel geometry) and `ℤ` (item
  counts and page indices).  JavaScript division by zero yields
  `Infinity`/`NaN`; in `ℚ` it yields `0`.  Every theorem whose truth could
  depend on that difference carries positivity hypotheses that keep the
  model inside the region where `ℚ` and JavaScript arithmetic agree.
* `await`ed data-source calls are modelled as applications of an explicit
  pure fetch function `fetch : ℤ → ℤ → Page`; the controller runs on one
  cooperative thread and every operation awaits its fetches sequentially,
  so an operation is a pure function of the pre-state.
* Each operation additionally returns the list of fetch requests it issued
  (start position and item count), so "how many fetches" claims are
  statements about that log.
* A TypeScript non-null assertion `x!.field` applied to `undefined` throws
  a `TypeError`; operations that can reach such a dereference return
  `Option` and model the throw as `none`.
* The sample data source `getPage` returns without ever resolving its
  promise when `startPosition >= totalNumberItems`; a promise that never
  resolves is modelled as `none`.
-/

namespace Scrollbar

/-- An item of the demo list: `ListItemImpl` carries only its number. -/
abbrev Item := ℤ

/-- `Page<T>` from `index.ts`: a fetched slice plus the source's total. -/
structure Page where
  startPosition : ℤ
  numTotalItems : ℤ
  items : List Item
deriving Repr, DecidableEq

/-- One call to the injected `requestPage` callback: the `startPosition`
and `numberItems` arguments passed to the data source. -/
structure FetchRequest where
  startPosition : ℤ
  numberItems : ℤ
deriving Repr, DecidableEq

/-- A data source: the `RequestPage<T>` callback. -/
abbrev Fetch := ℤ → ℤ → Page

/-- The mutable fields of `VerticalScrollController` together with the
observable host-surface state it writes (scroll position, tracker style,
rendered rows). -/
structure ControllerState where
  previousPage : Option Page
  currentPage : Option Page
  nextPage : Option Page
  numVisibleItems : ℤ
  trackerY : ℚ
  extrapolateFactor : ℚ
  trackableHeight : ℚ
  lastMargin : ℚ
  overlappingElements : ℤ
  rowHeight : ℚ
  startPosition : ℤ
  numTotalItems : ℤ
  viewportHeight : ℚ
  scrollTop : ℚ
  trackerMarginTop : ℚ
  trackerHeightPx : ℚ
  paintedItems : List Item
  paintCount : ℕ
deriving Repr, DecidableEq

/-- `let MIN_TRACKER_HEIGHT = 30;` -/
def MIN_TRACKER_HEIGHT : ℚ := 30

/-- JavaScript truncation (`Math.trunc`, the rounding used by `%`). -/
def jsTrunc (q : ℚ) : ℤ := if 0 ≤ q then ⌊q⌋ else ⌈q⌉

/-- The JavaScript remainder operator `a % b` on numbers:
`a - b * trunc(a / b)`.  (For `b = 0` JavaScript yields `NaN`; the model
yields `a`, and no theorem uses that point.) -/
def jsMod (a b : ℚ) : ℚ := a - b * (jsTrunc (a / b) : ℚ)

/-- The state after the constructor ran: all field initializers of the
class, `overlappingElements = 10`, and `tracker.style.marginTop = "0px"`.
The viewport height (`scrollable.clientHeight`) is a parameter of the
host surface. -/
def initialState (viewportHeight : ℚ) : ControllerState where
  previousPage := none
  currentPage := none
  nextPage := none
  numVisibleItems := 0
  trackerY := 0
  extrapolateFactor := 0
  trackableHeight := 0
  lastMargin := 0
  overlappingElements := 10
  rowHeight := 0
  startPosition := 0
  numTotalItems := 0
  viewportHeight := viewportHeight
  scrollTop := 0
  trackerMarginTop := 0
  trackerHeightPx := 0
  paintedItems := []
  paintCount := 0

/-- `fillContent`: early-returns when no current page is resident,
otherwise clears the content region and re-inserts one row per item of the
current page, in item order. -/
def fillContent (st : ControllerState) : ControllerState :=
  match st.currentPage with
  | none => st
  | some p => { st with paintedItems := p.items, paintCount := st.paintCount + 1 }

/-- `requestPageIfExists(page)`: when `page >= 0` and
`overlappingElements * page <= numTotalItems`, fetches
`numVisibleItems + overlappingElements` items (one extra
`overlappingElements` when `page > 0`) starting at
`page * overlappingElements`, caches the returned total and returns the
page; otherwise returns `undefined` (modelled `none`) without fetching. -/
def requestPageIfExists (fetch : Fetch) (st : ControllerState) (page : ℤ) :
    Option Page × ControllerState × List FetchRequest :=
  if 0 ≤ page ∧ st.overlappingElements * page ≤ st.numTotalItems then
    let num := st.numVisibleItems + st.overlappingElements
    let num := if 0 < page then num + st.overlappingElements else num
    let p := fetch (page * st.overlappingElements) num
    (some p, { st with numTotalItems := p.numTotalItems },
      [⟨page * st.overlappingElements, num⟩])
  else
    (none, st, [])

/-- `calculateTrackerHeight()`:  `normalizeFactor = visibleHeight /
(rowHeight * numTotalItems)`; `0` when `normalizeFactor >= 1`, otherwise
`normalizeFactor * visibleHeight` raised to `MIN_TRACKER_HEIGHT` when it
falls below it. -/
def calculateTrackerHeight (rowHeight : ℚ) (numTotalItems : ℤ)
    (visibleHeight : ℚ) : ℚ :=
  let totalHeight := rowHeight * (numTotalItems : ℚ)
  let normalizeFactor := visibleHeight / totalHeight
  if 1 ≤ normalizeFactor then 0
  else
    let trackerHeight := normalizeFactor * visibleHeight
    if trackerHeight < MIN_TRACKER_HEIGHT then MIN_TRACKER_HEIGHT
    else trackerHeight

/-- `updatePages(page, scrollY)`, the full window resync: fetch `current`
at `page`, dereference it unconditionally (`this.currentPage!` — a
`TypeError`, modelled `none`, when the fetch returned absent), repaint,
recompute tracker geometry from the refreshed total, apply the in-page
scroll offset, then fetch `next` and `previous` sequentially. -/
def updatePages (fetch : Fetch) (st : ControllerState) (page : ℤ)
    (scrollY : ℚ) : Option (ControllerState × List FetchRequest) :=
  let availableHeight := st.viewportHeight
  let r1 := requestPageIfExists fetch st page
  match r1.1 with
  | none => none
  | some c =>
    let st1 := { r1.2.1 with currentPage := some c,
                             startPosition := c.startPosition }
    let st2 := fillContent st1
    let trackerHeight :=
      calculateTrackerHeight st2.rowHeight c.numTotalItems availableHeight
    let trackableHeight := availableHeight - trackerHeight
    let totalHeight := st2.rowHeight * (c.numTotalItems : ℚ)
    let extrapolateFactor := (totalHeight - availableHeight) / trackableHeight
    let st3 := { st2 with trackableHeight := trackableHeight,
                          extrapolateFactor := extrapolateFactor,
                          trackerHeightPx := trackerHeight }
    let top := jsMod scrollY ((st3.overlappingElements : ℚ) * st3.rowHeight)
    let st4 := { st3 with scrollTop := top }
    let r2 := requestPageIfExists fetch st4 (page + 1)
    let st5 := { r2.2.1 with nextPage := r2.1 }
    let r3 := requestPageIfExists fetch st5 (page - 1)
    let st6 := { r3.2.1 with previousPage := r3.1 }
    some (st6, r1.2.2 ++ r2.2.2 ++ r3.2.2)

/-- `Math.floor(scrollY / (this.overlappingElements * this.rowHeight))` —
the page index a content offset resolves to. -/
def pageIndexOfScroll (st : ControllerState) (scrollY : ℚ) : ℤ :=
  ⌊scrollY / ((st.overlappingElements : ℚ) * st.rowHeight)⌋

/-- `scrollTo(scrollY)` (the spec's `resolveTarget`): compares the target
page index with `startPosition / overlappingElements` and either scrolls
within the page, slides the window forward or backward by one page, or
falls back to a full `updatePages` resync. -/
def scrollTo (fetch : Fetch) (st : ControllerState) (scrollY : ℚ) :
    Option (ControllerState × List FetchRequest) :=
  let stride : ℚ := (st.overlappingElements : ℚ) * st.rowHeight
  let pageNumberByScroll : ℤ := pageIndexOfScroll st scrollY
  let pageNumberByPage : ℚ :=
    (st.startPosition : ℚ) / (st.overlappingElements : ℚ)
  if pageNumberByPage = (pageNumberByScroll : ℚ) then
    some ({ st with scrollTop := jsMod scrollY stride }, [])
  else if pageNumberByPage + 1 = (pageNumberByScroll : ℚ) ∧
      st.nextPage.isSome then
    match st.nextPage with
    | none => none
    | some np =>
      let st1 := { st with previousPage := st.currentPage,
                           currentPage := some np,
                           startPosition := np.startPosition }
      let r := requestPageIfExists fetch st1 (pageNumberByScroll + 1)
      let st2 := { r.2.1 with nextPage := r.1 }
      let st3 := { st2 with scrollTop := jsMod scrollY stride }
      some (fillContent st3, r.2.2)
  else if pageNumberByPage - 1 = (pageNumberByScroll : ℚ) ∧
      st.previousPage.isSome then
    match st.previousPage with
    | none => none
    | some pp =>
      let st1 := { st with nextPage := st.currentPage,
                           currentPage := some pp,
                           startPosition := pp.startPosition }
      let r := requestPageIfExists fetch st1 pageNumberByScroll
      let st2 := { r.2.1 with previousPage := r.1 }
      let st3 := { st2 with scrollTop := jsMod scrollY stride }
      some (fillContent st3, r.2.2)
  else
    updatePages fetch st pageNumberByScroll scrollY

/-- `onTrackerDown(evt)`: start a drag session — capture the pointer `y`
and re-read the authoritative margin from `tracker.style.marginTop`. -/
def onTrackerDown (st : ControllerState) (pageY : ℚ) : ControllerState :=
  { st with trackerY := pageY, lastMargin := st.trackerMarginTop }

/-- `onTrackerUp(evt)`: end the drag session and re-read the margin from
`tracker.style.marginTop`. -/
def onTrackerUp (st : ControllerState) : ControllerState :=
  { st with lastMargin := st.trackerMarginTop }

/-- The new tracker margin computed by `onTrackerMove`:
`evt.pageY - trackerY + lastMargin`, clamped to `[0, trackableHeight]`. -/
def trackerMoveMargin (st : ControllerState) (pageY : ℚ) : ℚ :=
  let newMargin := pageY - st.trackerY + st.lastMargin
  let newMargin := if newMargin < 0 then 0 else newMargin
  if st.trackableHeight ≤ newMargin then st.trackableHeight else newMargin

/-- `onTrackerMove(evt)`: write the clamped margin to
`tracker.style.marginTop` (note: `this.lastMargin` is NOT updated here)
and submit `extrapolateFactor * newMargin` to `scrollTo`. -/
def onTrackerMove (fetch : Fetch) (st : ControllerState) (pageY : ℚ) :
    Option (ControllerState × List FetchRequest) :=
  let newMargin := trackerMoveMargin st pageY
  let st1 := { st with trackerMarginTop := newMargin }
  scrollTo fetch st1 (st1.extrapolateFactor * newMargin)

/-- The three `WheelEvent.deltaMode` units. -/
inductive DeltaMode
  | line
  | page
  | pixel
deriving Repr, DecidableEq

/-- `onScrollWheel(evt)`: convert the delta to content pixels, accumulate
`scrollY / extrapolateFactor` onto `this.lastMargin`, clamp to
`[0, trackableHeight]`, write the result to `tracker.style.marginTop` and
submit `extrapolateFactor * lastMargin` to `scrollTo`. -/
def onScrollWheel (fetch : Fetch) (st : ControllerState) (mode : DeltaMode)
    (deltaY : ℚ) : Option (ControllerState × List FetchRequest) :=
  let scrollY : ℚ :=
    match mode with
    | .line => deltaY * st.rowHeight
    | .page => deltaY * st.viewportHeight
    | .pixel => deltaY
  let deltaMargin := scrollY / st.extrapolateFactor
  let lastMargin := deltaMargin + st.lastMargin
  let lastMargin := if lastMargin < 0 then 0 else lastMargin
  let lastMargin :=
    if st.trackableHeight ≤ lastMargin then st.trackableHeight
    else lastMargin
  let st1 := { st with lastMargin := lastMargin,
                       trackerMarginTop := lastMargin }
  scrollTo fetch st1 (st1.extrapolateFactor * lastMargin)

/-- `initialize(getPage, insertRow, dummyEntry)` after the height probe
resolved with `measuredRowHeight`: store the row height, compute
`numVisibleItems = ceil(clientHeight / rowHeight)` and run
`updatePages(0, 0)`.  The code performs no validation of the measured
height. -/
def initController (fetch : Fetch) (st : ControllerState)
    (measuredRowHeight : ℚ) : Option (ControllerState × List FetchRequest) :=
  let availableHeight := st.viewportHeight
  let st1 := { st with rowHeight := measuredRowHeight,
                       numVisibleItems := ⌈availableHeight / measuredRowHeight⌉ }
  updatePages fetch st1 0 0

/-- `let totalNumberItems = 500;` of the sample data source. -/
def totalNumberItems : ℤ := 500

/-- The sample data source `getPage(startPosition, numberItems)`.  When
`startPosition >= totalNumberItems` the promise executor returns without
calling `resolve`, so the promise never settles: modelled as `none`.
Otherwise it resolves with the items `idx + startPosition` for
`0 ≤ idx < numberItems` that lie below the total. -/
def getPage (startPosition numberItems : ℤ) : Option Page :=
  if totalNumberItems ≤ startPosition then none
  else
    some { startPosition := startPosition
           numTotalItems := totalNumberItems
           items := (List.range numberItems.toNat).filterMap fun idx =>
             if totalNumberItems ≤ (idx : ℤ) + startPosition then none
             else some ((idx : ℤ) + startPosition) }

/-- A minimal well-behaved data source used to instantiate witnesses: it
echoes the requested start position and reports a fixed total. -/
def echoFetch (total : ℤ) : Fetch := fun s _n =>
  { startPosition := s, numTotalItems := total, items := [] }

/-- Claim C1: for every `pageIndex ≥ 0` with
`pageIndex * overlapStride ≤ numTotalItems` (the cached total),
`requestPageIfExists pageIndex` returns a page whose `startPosition`
equals `pageIndex * overlapStride`; for every other `pageIndex` it
returns absent, not an error.  The hypothesis is the data-source
contract: a fetched page begins at the requested start position. -/
theorem c1_requestPageIfExists (fetch : Fetch) (st : ControllerState)
    (page : ℤ) (hsrc : ∀ s n, (fetch s n).startPosition = s) :
    ((0 ≤ page ∧ st.overlappingElements * page ≤ st.numTotalItems) →
      ∃ p, (requestPageIfExists fetch st page).1 = some p ∧
        p.startPosition = page * st.overlappingElements) ∧
    (¬(0 ≤ page ∧ st.overlappingElements * page ≤ st.numTotalItems) →
      (requestPageIfExists fetch st page).1 = none) := by
  constructor
  · intro h
    simp only [requestPageIfExists, if_pos h]
    exact ⟨_, rfl, hsrc _ _⟩
  · intro h
    simp only [requestPageIfExists, if_neg h]

/-- Witness for C1 at `pageIndex = 0` on the freshly constructed state. -/
theorem c1_witness :
    (requestPageIfExists (echoFetch 500) (initialState 480) 0).1.isSome
      = true := by
  obtain ⟨p, hp, -⟩ :=
    (c1_requestPageIfExists (echoFetch 500) (initialState 480) 0
      (fun s n => rfl)).1 ⟨le_refl 0, by norm_num [initialState]⟩
  rw [hp]; rfl

/-- Claim C9: `updatePages` dereferences the fetched current page
unconditionally — it fails (a `TypeError` on `this.currentPage!`,
modelled `none`) exactly when the requested page index violates
`pageIndex ≥ 0 ∧ pageIndex * overlapStride ≤ numTotalItems`; under that
precondition the absent branch is unreachable. -/
theorem c9_updatePagesDeref (fetch : Fetch) (st : ControllerState)
    (page : ℤ) (scrollY : ℚ) :
    updatePages fetch st page scrollY = none ↔
      ¬(0 ≤ page ∧ st.overlappingElements * page ≤ st.numTotalItems) := by
  by_cases h : 0 ≤ page ∧ st.overlappingElements * page ≤ st.numTotalItems
  · simp only [updatePages, requestPageIfExists, if_pos h]
    simp [h]
  · simp only [updatePages, requestPageIfExists, if_neg h]
    simp [h]

/-- Claim C6: with a positive total content height (where `ℚ` and
JavaScript division agree), the tracker height is `0` whenever
`viewportHeight / totalContentHeight ≥ 1`, and otherwise equals
`max MIN_TRACKER_HEIGHT (proportion * viewportHeight)`, hence is at
least `MIN_TRACKER_HEIGHT = 30`. -/
theorem c6_trackerHeight (r : ℚ) (N : ℤ) (v : ℚ)
    (_hpos : 0 < r * (N : ℚ)) :
    (1 ≤ v / (r * (N : ℚ)) → calculateTrackerHeight r N v = 0) ∧
    (v / (r * (N : ℚ)) < 1 →
      calculateTrackerHeight r N v =
        max MIN_TRACKER_HEIGHT (v / (r * (N : ℚ)) * v) ∧
      MIN_TRACKER_HEIGHT ≤ calculateTrackerHeight r N v) := by
  unfold calculateTrackerHeight
  constructor
  · intro h
    rw [if_pos h]
  · intro h
    rw [if_neg (not_le.mpr h)]
    constructor
    · by_cases hm : v / (r * (N : ℚ)) * v < MIN_TRACKER_HEIGHT
      · rw [if_pos hm, max_eq_left hm.le]
      · rw [if_neg hm, max_eq_right (not_lt.mp hm)]
    · by_cases hm : v / (r * (N : ℚ)) * v < MIN_TRACKER_HEIGHT
      · rw [if_pos hm]
      · rw [if_neg hm]
        exact not_lt.mp hm

/-- Witness for C6: a 480 px viewport over 500 rows of 24 px hides
nothing — the tracker height is clamped up to the 30 px minimum. -/
theorem c6_witness :
    MIN_TRACKER_HEIGHT ≤ calculateTrackerHeight 24 500 480 := by
  have h := (c6_trackerHeight 24 500 480 (by norm_num)).2 (by norm_num)
  exact h.2

/-- Claim C4: when the target offset resolves to the current page index,
`scrollTo` leaves all three page slots (and everything else) unchanged,
issues zero fetches, and only sets the in-viewport scroll position to
`scrollY mod (overlapStride * rowHeight)`. -/
theorem c4_withinPage (fetch : Fetch) (st : ControllerState) (scrollY : ℚ)
    (hguard : (st.startPosition : ℚ) / (st.overlappingElements : ℚ) =
      (pageIndexOfScroll st scrollY : ℚ)) :
    scrollTo fetch st scrollY =
      some ({ st with
        scrollTop := jsMod scrollY
          ((st.overlappingElements : ℚ) * st.rowHeight) }, []) := by
  simp only [scrollTo]
  rw [if_pos hguard]

/-- The state used by the C4 witness: page 0 resident geometry with
row height 1 and 500 items. -/
def c4State : ControllerState :=
  { initialState 480 with rowHeight := 1, numTotalItems := 500 }

/-- Witness for C4: offset 5 px inside page 0 (row height 1, stride 10)
repositions the viewport to 5 px and fetches nothing. -/
theorem c4_witness :
    scrollTo (echoFetch 500) c4State 5 =
      some ({ c4State with
        scrollTop := jsMod 5
          ((c4State.overlappingElements : ℚ) * c4State.rowHeight) }, []) :=
  c4_withinPage (echoFetch 500) c4State 5
    (by norm_num [c4State, initialState, pageIndexOfScroll])
/-- Claim C2: a valid `pageIndex` requests exactly
`numVisibleItems + overlapStride` items starting at
`pageIndex * overlapStride` when `pageIndex = 0` and one extra
`overlapStride` when `pageIndex > 0`; and in the demo scenario
(viewport 480 px, row height 24, total 500, hence 20 visible items)
initialization at offset 0 fetches `current` with count 30 at
position 0, `next` with count 40 at position 10, and leaves `previous`
absent. -/
theorem c2_fetchCounts (fetch : Fetch) (st : ControllerState) (page : ℤ)
    (hpage : 0 ≤ page)
    (hval : st.overlappingElements * page ≤ st.numTotalItems)
    (hfetch : (fetch 0 30).numTotalItems = 500) :
    (requestPageIfExists fetch st page).2.2 =
      [⟨page * st.overlappingElements,
        if 0 < page
        then st.numVisibleItems + st.overlappingElements +
          st.overlappingElements
        else st.numVisibleItems + st.overlappingElements⟩] ∧
    ∃ st', initController fetch (initialState 480) 24 =
        some (st', [⟨0, 30⟩, ⟨10, 40⟩]) ∧ st'.previousPage = none := by
  constructor
  · simp only [requestPageIfExists, if_pos (And.intro hpage hval)]
  · norm_num [initController, updatePages, requestPageIfExists,
      fillContent, initialState, hfetch, jsMod, jsTrunc,
      calculateTrackerHeight, MIN_TRACKER_HEIGHT]

/-- Witness for C2 at `pageIndex = 0` on the freshly constructed state
(0 visible items cached, so the count is `0 + 10`). -/
theorem c2_witness :
    (requestPageIfExists (echoFetch 500) (initialState 480) 0).2.2 =
      [⟨0, 10⟩] := by
  have h := (c2_fetchCounts (echoFetch 500) (initialState 480) 0 le_rfl
    (by norm_num [initialState]) rfl).1
  simpa [initialState] using h

/-- Claim C7 (evidence of the divergence): with a measured row height of
`0` the initialization path raises no configuration error at all — it
completes and issues its data fetches with the degenerate geometry
(`numVisibleItems = ceil(480 / 0)`, which is `0` in the `ℚ` model and
`Infinity` in JavaScript; either way no failure occurs before the zero
value reaches later divisors). -/
theorem c7_zeroRowHeightNoError :
    (initController (echoFetch 500) (initialState 480) 0).isSome = true ∧
    (initController (echoFetch 500) (initialState 480) 0).map Prod.snd =
      some [⟨0, 10⟩, ⟨10, 20⟩] := by
  norm_num [initController, updatePages, requestPageIfExists, fillContent,
    initialState, echoFetch, jsMod, jsTrunc, calculateTrackerHeight,
    MIN_TRACKER_HEIGHT]

/-- The controller state cached by the demo after its first fetch:
total 500, 20 visible items, stride 10. -/
def c10State : ControllerState :=
  { initialState 480 with numTotalItems := 500, numVisibleItems := 20 }

/-- Claim C10: at the exact boundary `pageIndex * overlapStride =
numTotalItems` (page 50, total 500), `requestPageIfExists` treats the
index as valid and issues a fetch at `startPosition = 500 =
numTotalItems` with count 40 — yet the sample `getPage` returns without
resolving (modelled `none`) for every `startPosition ≥ totalNumberItems`,
so that awaited fetch never completes. -/
theorem c10_boundaryFetchNeverResolves :
    (requestPageIfExists (echoFetch 500) c10State 50).2.2 = [⟨500, 40⟩] ∧
    (requestPageIfExists (echoFetch 500) c10State 50).1.isSome = true ∧
    getPage 500 40 = none ∧
    (∀ s n : ℤ, totalNumberItems ≤ s → getPage s n = none) := by
  refine ⟨?_, ?_, ?_, ?_⟩
  · norm_num [requestPageIfExists, c10State, initialState]
  · norm_num [requestPageIfExists, c10State, initialState]
  · norm_num [getPage, totalNumberItems]
  · intro s n hs
    simp only [getPage, if_pos hs]

/-- Witness for C10: the boundary request itself never resolves. -/
theorem c10_witness : getPage 500 40 = none :=
  c10_boundaryFetchNeverResolves.2.2.2 500 40 (by norm_num [totalNumberItems])
/-- Claim C3 (amended): when the target offset resolves to
`currentPageIndex + 1` and `next` is resident, the window slides forward
— `previous` becomes the old `current`, `current` becomes the old
`next`, the viewport is repainted and the in-page scroll offset is
applied; exactly one fetch is issued (a fresh `next` at
`targetPageIndex + 1`, no `current`/`previous` re-fetch) provided
`(targetPageIndex + 1) * overlapStride ≤ numTotalItems`, and otherwise
zero fetches are issued and `next` becomes absent. -/
theorem c3_slideForward (fetch : Fetch) (st : ControllerState)
    (scrollY : ℚ) (np : Page)
    (ho : 0 < st.overlappingElements)
    (hsp : 0 ≤ st.startPosition)
    (hnext : st.nextPage = some np)
    (hguard : (st.startPosition : ℚ) / (st.overlappingElements : ℚ) + 1 =
      (pageIndexOfScroll st scrollY : ℚ)) :
    ∃ st', scrollTo fetch st scrollY =
      some (st',
        if st.overlappingElements * (pageIndexOfScroll st scrollY + 1) ≤
            st.numTotalItems
        then [⟨(pageIndexOfScroll st scrollY + 1) * st.overlappingElements,
              st.numVisibleItems + st.overlappingElements +
                st.overlappingElements⟩]
        else []) ∧
      st'.previousPage = st.currentPage ∧
      st'.currentPage = some np ∧
      st'.nextPage =
        (if st.overlappingElements * (pageIndexOfScroll st scrollY + 1) ≤
            st.numTotalItems
         then some (fetch
           ((pageIndexOfScroll st scrollY + 1) * st.overlappingElements)
           (st.numVisibleItems + st.overlappingElements +
             st.overlappingElements))
         else none) ∧
      st'.startPosition = np.startPosition ∧
      st'.paintCount = st.paintCount + 1 ∧
      st'.paintedItems = np.items ∧
      st'.scrollTop =
        jsMod scrollY ((st.overlappingElements : ℚ) * st.rowHeight) := by
  have ho' : (0:ℚ) < (st.overlappingElements : ℚ) := by exact_mod_cast ho
  have hsp' : (0:ℚ) ≤ (st.startPosition : ℚ) := by exact_mod_cast hsp
  have hq : (0:ℚ) ≤ (st.startPosition : ℚ) / (st.overlappingElements : ℚ) :=
    div_nonneg hsp' ho'.le
  have ht1 : (1:ℤ) ≤ pageIndexOfScroll st scrollY := by
    have h1 : (1:ℚ) ≤ (pageIndexOfScroll st scrollY : ℚ) := by
      rw [← hguard]; linarith
    exact_mod_cast h1
  have hne : ¬((st.startPosition : ℚ) / (st.overlappingElements : ℚ) =
      (pageIndexOfScroll st scrollY : ℚ)) := by
    intro hEq
    rw [hEq] at hguard
    linarith
  simp only [scrollTo]
  rw [if_neg hne, if_pos (And.intro hguard (by rw [hnext]; rfl))]
  simp only [hnext]
  by_cases hval : st.overlappingElements * (pageIndexOfScroll st scrollY + 1) ≤
      st.numTotalItems
  · simp only [if_pos hval]
    simp only [requestPageIfExists]
    rw [if_pos (And.intro (by linarith) hval)]
    rw [if_pos (by linarith : (0:ℤ) < pageIndexOfScroll st scrollY + 1)]
    simp [fillContent, mul_comm]
  · simp only [if_neg hval]
    simp only [requestPageIfExists]
    rw [if_neg (by intro hc; exact hval hc.2)]
    simp [fillContent]
/-- The state used by the C3 witness: page 0 current, page 1 resident
as `next`, 500 items of height 1, 20 visible. -/
def c3WState : ControllerState :=
  { initialState 480 with
    numTotalItems := 500, rowHeight := 1, numVisibleItems := 20,
    currentPage := some ⟨0, 500, []⟩, nextPage := some ⟨10, 500, [7]⟩ }

/-- Witness for C3 (amended): scrolling from page 0 to 10 px slides the
window forward and issues exactly one fetch, for the fresh `next` at
page 2 (position 20, count 40), which becomes the new `next` slot. -/
theorem c3_witness :
    ∃ st', scrollTo (echoFetch 500) c3WState 10 =
      some (st',
        if c3WState.overlappingElements *
            (pageIndexOfScroll c3WState 10 + 1) ≤ c3WState.numTotalItems
        then [⟨(pageIndexOfScroll c3WState 10 + 1) *
                c3WState.overlappingElements,
              c3WState.numVisibleItems + c3WState.overlappingElements +
                c3WState.overlappingElements⟩]
        else []) ∧
      st'.previousPage = c3WState.currentPage ∧
      st'.currentPage = some (⟨10, 500, [7]⟩ : Page) ∧
      st'.nextPage =
        (if c3WState.overlappingElements *
            (pageIndexOfScroll c3WState 10 + 1) ≤ c3WState.numTotalItems
         then some (echoFetch 500
           ((pageIndexOfScroll c3WState 10 + 1) *
             c3WState.overlappingElements)
           (c3WState.numVisibleItems + c3WState.overlappingElements +
             c3WState.overlappingElements))
         else none) ∧
      st'.startPosition = (⟨10, 500, [7]⟩ : Page).startPosition ∧
      st'.paintCount = c3WState.paintCount + 1 ∧
      st'.paintedItems = (⟨10, 500, [7]⟩ : Page).items ∧
      st'.scrollTop = jsMod 10
        ((c3WState.overlappingElements : ℚ) * c3WState.rowHeight) :=
  c3_slideForward (echoFetch 500) c3WState 10 ⟨10, 500, [7]⟩
    (by norm_num [c3WState, initialState])
    (by norm_num [c3WState, initialState])
    rfl
    (by norm_num [c3WState, initialState, pageIndexOfScroll])

/-- The state refuting C3 as stated: current page 49 (position 490),
`next` resident at position 500 — the last valid page. -/
def c3State : ControllerState :=
  { initialState 480 with
    startPosition := 490, numTotalItems := 500, rowHeight := 1,
    numVisibleItems := 20,
    currentPage := some ⟨490, 500, []⟩,
    nextPage := some ⟨500, 500, []⟩ }

/-- Counterexample to C3 as stated: scrolling to 500 px is a slide
forward (target page 50 = current page 49 + 1, `next` resident), yet
zero fetches are issued — not exactly one — because the fresh `next`
index 51 is already out of range (`51 * 10 > 500`); the `next` slot
becomes absent. -/
theorem c3_counterexample :
    ((pageIndexOfScroll c3State 500 : ℚ) =
      (c3State.startPosition : ℚ) / (c3State.overlappingElements : ℚ) + 1) ∧
    c3State.nextPage.isSome = true ∧
    (scrollTo (echoFetch 500) c3State 500).map Prod.snd = some [] ∧
    ((scrollTo (echoFetch 500) c3State 500).map
      fun r => r.1.nextPage) = some none := by
  refine ⟨by norm_num [c3State, initialState, pageIndexOfScroll], rfl, ?_, ?_⟩
  · norm_num [scrollTo, pageIndexOfScroll, requestPageIfExists, fillContent,
      c3State, initialState, jsMod, jsTrunc]
  · norm_num [scrollTo, pageIndexOfScroll, requestPageIfExists, fillContent,
      c3State, initialState, jsMod, jsTrunc]

/-- Claim C5: a drag that reaches (or overshoots) the bottom of the
tracker's travel submits content offset
`totalContentHeight − viewportHeight`, and the page index `scrollTo`
computes for that offset is valid — nonnegative with
`pageIndex * overlapStride ≤ numTotalItems` — never out of range. -/
theorem c5_dragToBottom (st : ControllerState) (pageY : ℚ)
    (ho : 0 < st.overlappingElements)
    (hr : 0 < st.rowHeight)
    (hT : 0 < st.trackableHeight)
    (hv : 0 ≤ st.viewportHeight)
    (hvH : st.viewportHeight ≤ st.rowHeight * (st.numTotalItems : ℚ))
    (hE : st.extrapolateFactor =
      (st.rowHeight * (st.numTotalItems : ℚ) - st.viewportHeight) /
        st.trackableHeight)
    (hdrag : st.trackableHeight ≤ pageY - st.trackerY + st.lastMargin) :
    st.extrapolateFactor * trackerMoveMargin st pageY =
      st.rowHeight * (st.numTotalItems : ℚ) - st.viewportHeight ∧
    0 ≤ pageIndexOfScroll st
        (st.rowHeight * (st.numTotalItems : ℚ) - st.viewportHeight) ∧
    pageIndexOfScroll st
        (st.rowHeight * (st.numTotalItems : ℚ) - st.viewportHeight) *
      st.overlappingElements ≤ st.numTotalItems := by
  have ho' : (0:ℚ) < (st.overlappingElements : ℚ) := by exact_mod_cast ho
  have hm : trackerMoveMargin st pageY = st.trackableHeight := by
    simp only [trackerMoveMargin]
    rw [if_neg (by linarith : ¬(pageY - st.trackerY + st.lastMargin < 0)),
      if_pos hdrag]
  have hnum : (0:ℚ) ≤
      st.rowHeight * (st.numTotalItems : ℚ) - st.viewportHeight := by
    linarith
  have hden : (0:ℚ) < (st.overlappingElements : ℚ) * st.rowHeight := by
    positivity
  refine ⟨?_, ?_, ?_⟩
  · rw [hm, hE, div_mul_cancel₀]
    exact ne_of_gt hT
  · exact Int.floor_nonneg.mpr (div_nonneg hnum hden.le)
  · have h1 : (pageIndexOfScroll st
        (st.rowHeight * (st.numTotalItems : ℚ) - st.viewportHeight) : ℚ) ≤
        (st.rowHeight * (st.numTotalItems : ℚ) - st.viewportHeight) /
          ((st.overlappingElements : ℚ) * st.rowHeight) := Int.floor_le _
    have h2 : (st.rowHeight * (st.numTotalItems : ℚ) - st.viewportHeight) /
          ((st.overlappingElements : ℚ) * st.rowHeight) ≤
        (st.numTotalItems : ℚ) / (st.overlappingElements : ℚ) := by
      rw [div_le_div_iff₀ hden ho']
      nlinarith [mul_nonneg hv ho'.le]
    have h3 := le_trans h1 h2
    rw [le_div_iff₀ ho'] at h3
    exact_mod_cast h3

/-- The state used by the C5 witness: 500 rows of height 1, viewport
480 px, tracker height 30, so trackable height 450 and extrapolate
factor `(500 − 480) / 450`. -/
def c5State : ControllerState :=
  { initialState 480 with
    numTotalItems := 500, rowHeight := 1, trackableHeight := 450,
    extrapolateFactor := (500 - 480) / 450 }

/-- Witness for C5: dragging to the bottom of the 450 px travel submits
offset 20 px, which resolves to the valid page index 2. -/
theorem c5_witness :
    c5State.extrapolateFactor * trackerMoveMargin c5State 450 =
      c5State.rowHeight * (c5State.numTotalItems : ℚ) -
        c5State.viewportHeight ∧
    0 ≤ pageIndexOfScroll c5State
        (c5State.rowHeight * (c5State.numTotalItems : ℚ) -
          c5State.viewportHeight) ∧
    pageIndexOfScroll c5State
        (c5State.rowHeight * (c5State.numTotalItems : ℚ) -
          c5State.viewportHeight) *
      c5State.overlappingElements ≤ c5State.numTotalItems :=
  c5_dragToBottom c5State 450
    (by norm_num [c5State, initialState])
    (by norm_num [c5State, initialState])
    (by norm_num [c5State, initialState])
    (by norm_num [c5State, initialState])
    (by norm_num [c5State, initialState])
    (by norm_num [c5State, initialState])
    (by norm_num [c5State, initialState])

/-- The state used to exhibit the C8 divergence: page 10 resident at
content offset 100 px, trackable height 100, extrapolate factor 2. -/
def c8State : ControllerState :=
  { initialState 480 with
    trackableHeight := 100, extrapolateFactor := 2, rowHeight := 1,
    startPosition := 100, numTotalItems := 500,
    currentPage := some ⟨100, 500, []⟩ }

/-- Claim C8 (evidence of the divergence): after a pointer-down at the
top and a drag-move to 50 px, the drag handler has written 50 px to
`tracker.style.marginTop` but left the shared field `lastMargin` at 0;
a subsequent wheel event with delta 0 starts from that stale
`lastMargin` — not from the 50 px the drag-move left behind — and
yanks the tracker back to 0.  The two input paths do not read one
shared authoritative offset. -/
theorem c8_handlersDiverge :
    ((onTrackerMove (echoFetch 500) (onTrackerDown c8State 0) 50).map
      fun r => (r.1.trackerMarginTop, r.1.lastMargin)) = some (50, 0) ∧
    (((onTrackerMove (echoFetch 500) (onTrackerDown c8State 0) 50).bind
      fun r => onScrollWheel (echoFetch 500) r.1 DeltaMode.pixel 0).map
      fun r => r.1.trackerMarginTop) = some 0 := by
  constructor
  · norm_num [onTrackerMove, onTrackerDown, trackerMoveMargin, scrollTo,
      pageIndexOfScroll, c8State, initialState, jsMod, jsTrunc]
  · norm_num [onTrackerMove, onTrackerDown, onScrollWheel,
      trackerMoveMargin, scrollTo, pageIndexOfScroll, updatePages,
      requestPageIfExists, fillContent, c8State, initialState, echoFetch,
      jsMod, jsTrunc, calculateTrackerHeight, MIN_TRACKER_HEIGHT]

end Scrollbar
